import Mathlib

/-!
Verification of the AI-analysis core of the FitWave repository
(`src/ai_analysis/services.py` and `src/ai_analysis/views.py`).

The Python code is embedded shallowly:
* pixel coordinates, visibilities, scores and all other float data that the
  code only adds, subtracts, multiplies, divides, compares and rounds are
  modelled exactly over `ℚ`;
* the one transcendental operation, `math.degrees(math.atan2(y, x))`, is
  modelled over `ℝ` through `Complex.arg` (`atan2deg` below), so slope and
  tilt angles live in `ℝ`;
* Python's `round(x, d)` (banker's rounding, round half to even) is modelled
  by `rhe`/`pyRound`;
* Python dictionaries with possibly-absent keys become structures with
  `Option` fields, and Python truthiness tests on floats (`if v:`) are
  modelled by an explicit `= 0` test.
-/

namespace FitWave

/-! ## Python rounding (round half to even) -/

/-- Round half to even, the rounding used by Python's builtin `round`:
nearest integer, ties going to the even neighbour. -/
def rhe {α : Type*} [LinearOrderedField α] [FloorRing α] (x : α) : ℤ :=
  if Int.fract x < 1 / 2 then ⌊x⌋
  else if 1 / 2 < Int.fract x then ⌊x⌋ + 1
  else if ⌊x⌋ % 2 = 0 then ⌊x⌋ else ⌊x⌋ + 1

/-- Python's `round(x, d)`: round to `d` decimal places, half to even. -/
def pyRound {α : Type*} [LinearOrderedField α] [FloorRing α] (x : α) (d : ℕ) : α :=
  ((rhe (x * 10 ^ d) : ℤ) : α) / 10 ^ d

section RoundingLemmas

variable {α : Type*} [LinearOrderedField α] [FloorRing α]

theorem rhe_intCast (n : ℤ) : rhe ((n : α)) = n := by
  unfold rhe
  rw [Int.fract_intCast, Int.floor_intCast, if_pos (by norm_num)]

theorem rhe_floor_le (x : α) : ⌊x⌋ ≤ rhe x := by
  unfold rhe
  split_ifs <;> omega

theorem rhe_le_floor_succ (x : α) : rhe x ≤ ⌊x⌋ + 1 := by
  unfold rhe
  split_ifs <;> omega

theorem rhe_mono {x y : α} (h : x ≤ y) : rhe x ≤ rhe y := by
  rcases lt_or_eq_of_le (Int.floor_mono h) with hf | hf
  · calc rhe x ≤ ⌊x⌋ + 1 := rhe_le_floor_succ x
      _ ≤ ⌊y⌋ := by omega
      _ ≤ rhe y := rhe_floor_le y
  · have hfr : Int.fract x ≤ Int.fract y := by
      have hx := Int.self_sub_floor x
      have hy := Int.self_sub_floor y
      rw [← hx, ← hy, hf]
      exact sub_le_sub_right h _
    unfold rhe
    rw [hf]
    split_ifs <;> first | omega | linarith

theorem rhe_neg (x : α) : rhe (-x) = -rhe x := by
  rcases eq_or_ne (Int.fract x) 0 with h0 | h0
  · obtain ⟨n, hn⟩ : ∃ n : ℤ, x = (n : α) := by
      refine ⟨⌊x⌋, ?_⟩
      have h := Int.floor_add_fract x
      rw [h0, add_zero] at h
      exact h.symm
    rw [hn, ← Int.cast_neg, rhe_intCast, rhe_intCast]
  · have hfx0 : 0 < Int.fract x := (Int.fract_nonneg x).lt_of_ne (Ne.symm h0)
    have hfx1 : Int.fract x < 1 := Int.fract_lt_one x
    have hneg : Int.fract (-x) = 1 - Int.fract x := Int.fract_neg h0
    have hfl : ⌊-x⌋ = -⌊x⌋ - 1 := by
      have h1 : ((⌊-x⌋ : ℤ) : α) = ((-⌊x⌋ - 1 : ℤ) : α) := by
        have ha := Int.floor_add_fract (-x)
        have hb := Int.floor_add_fract x
        rw [hneg] at ha
        push_cast
        linarith
      exact_mod_cast h1
    unfold rhe
    rw [hneg, hfl]
    rcases lt_trichotomy (Int.fract x) ((1 : α) / 2) with hc | hc | hc
    · have l1 : ¬(1 - Int.fract x < 1 / 2) := by linarith
      have l2 : (1 : α) / 2 < 1 - Int.fract x := by linarith
      rw [if_neg l1, if_pos l2, if_pos hc]
      omega
    · have l1 : ¬(1 - Int.fract x < 1 / 2) := by linarith
      have l2 : ¬((1 : α) / 2 < 1 - Int.fract x) := by linarith
      have l3 : ¬(Int.fract x < 1 / 2) := by linarith
      have l4 : ¬((1 : α) / 2 < Int.fract x) := by linarith
      rw [if_neg l1, if_neg l2, if_neg l3, if_neg l4]
      by_cases hp : ⌊x⌋ % 2 = 0
      · have hp2 : ¬((-⌊x⌋ - 1) % 2 = 0) := by omega
        rw [if_neg hp2, if_pos hp]
        omega
      · have hp2 : (-⌊x⌋ - 1) % 2 = 0 := by omega
        rw [if_pos hp2, if_neg hp]
        omega
    · have l1 : 1 - Int.fract x < 1 / 2 := by linarith
      have l3 : ¬(Int.fract x < 1 / 2) := by linarith
      rw [if_pos l1, if_neg l3, if_pos hc]
      omega

theorem pyRound_intCast (n : ℤ) (d : ℕ) : pyRound ((n : α)) d = (n : α) := by
  unfold pyRound
  have h1 : ((n : α)) * 10 ^ d = (((n * 10 ^ d : ℤ)) : α) := by push_cast; ring
  have h2 : ((10 : α)) ^ d ≠ 0 := by positivity
  rw [h1, rhe_intCast]
  push_cast
  exact mul_div_cancel_right₀ _ h2

theorem pyRound_zero (d : ℕ) : pyRound (0 : α) d = 0 := by
  have h : pyRound (((0 : ℤ)) : α) d = ((0 : ℤ) : α) := pyRound_intCast 0 d
  simpa using h

theorem pyRound_neg (x : α) (d : ℕ) : pyRound (-x) d = -pyRound x d := by
  unfold pyRound
  rw [neg_mul, rhe_neg]
  push_cast
  ring

theorem pyRound_mono {x y : α} (d : ℕ) (h : x ≤ y) : pyRound x d ≤ pyRound y d := by
  unfold pyRound
  have h10 : (0 : α) < 10 ^ d := by positivity
  have hr : rhe (x * 10 ^ d) ≤ rhe (y * 10 ^ d) :=
    rhe_mono (mul_le_mul_of_nonneg_right h h10.le)
  have hc : ((rhe (x * 10 ^ d) : ℤ) : α) ≤ ((rhe (y * 10 ^ d) : ℤ) : α) := by
    exact_mod_cast hr
  exact (div_le_div_iff_of_pos_right h10).mpr hc

theorem pyRound_max_one (s : α) : pyRound (max 1 s) 1 = max 1 (pyRound s 1) := by
  have hone : pyRound ((1 : α)) 1 = 1 := by
    have h : pyRound (((1 : ℤ)) : α) 1 = ((1 : ℤ) : α) := pyRound_intCast 1 1
    simpa using h
  rcases le_total s 1 with h | h
  · rw [max_eq_left h, hone, max_eq_left]
    calc pyRound s 1 ≤ pyRound 1 1 := pyRound_mono 1 h
      _ = 1 := hone
  · rw [max_eq_right h, max_eq_right]
    calc (1 : α) = pyRound 1 1 := hone.symm
      _ ≤ pyRound s 1 := pyRound_mono 1 h

theorem rhe_eval_low {α : Type*} [LinearOrderedField α] [FloorRing α]
    (x : α) (n : ℤ) (h1 : (n : α) ≤ x) (h2 : x < (n : α) + 1 / 2) :
    rhe x = n := by
  have hfl : ⌊x⌋ = n := Int.floor_eq_iff.mpr ⟨h1, by linarith⟩
  have hd : x - ((⌊x⌋ : ℤ) : α) = Int.fract x := Int.self_sub_floor x
  rw [hfl] at hd
  have hfr : Int.fract x < 1 / 2 := by rw [← hd]; linarith
  unfold rhe
  rw [if_pos hfr, hfl]

theorem rhe_eval_high {α : Type*} [LinearOrderedField α] [FloorRing α]
    (x : α) (n : ℤ) (h1 : (n : α) + 1 / 2 < x) (h2 : x < (n : α) + 1) :
    rhe x = n + 1 := by
  have hfl : ⌊x⌋ = n := Int.floor_eq_iff.mpr ⟨by linarith, by linarith⟩
  have hd : x - ((⌊x⌋ : ℤ) : α) = Int.fract x := Int.self_sub_floor x
  rw [hfl] at hd
  have hfr : 1 / 2 < Int.fract x := by rw [← hd]; linarith
  unfold rhe
  rw [if_neg (by linarith), if_pos hfr, hfl]

theorem rhe_eval_tie {α : Type*} [LinearOrderedField α] [FloorRing α]
    (x : α) (n : ℤ) (h1 : x = (n : α) + 1 / 2) :
    rhe x = if n % 2 = 0 then n else n + 1 := by
  have hfl : ⌊x⌋ = n := Int.floor_eq_iff.mpr ⟨by rw [h1]; linarith, by rw [h1]; linarith⟩
  have hd : x - ((⌊x⌋ : ℤ) : α) = Int.fract x := Int.self_sub_floor x
  rw [hfl] at hd
  have hfr : Int.fract x = 1 / 2 := by rw [← hd, h1]; ring
  unfold rhe
  rw [hfr, if_neg (by norm_num), if_neg (by norm_num), hfl]

theorem pyRound_eval {α : Type*} [LinearOrderedField α] [FloorRing α]
    (x : α) (d : ℕ) (n : ℤ) (h : rhe (x * 10 ^ d) = n) :
    pyRound x d = (n : α) / 10 ^ d := by
  unfold pyRound
  rw [h]

end RoundingLemmas

/-! ## The angle primitive

`math.degrees(math.atan2(y, x))` from the source, modelled through
`Complex.arg` (which is exactly `atan2 im re` in radians). -/

open ComplexConjugate in
/-- `atan2deg y x` models Python's `math.degrees(math.atan2(y, x))`. -/
noncomputable def atan2deg (y x : ℝ) : ℝ :=
  Complex.arg ⟨x, y⟩ * 180 / Real.pi

theorem atan2deg_neg_fst (y x : ℝ) (h : ¬(x < 0 ∧ y = 0)) :
    atan2deg (-y) x = -atan2deg y x := by
  unfold atan2deg
  have hconj : (⟨x, -y⟩ : ℂ) = (starRingEnd ℂ) ⟨x, y⟩ := by
    apply Complex.ext
    · rw [Complex.conj_re]
    · rw [Complex.conj_im]
  have hpi : Complex.arg ⟨x, y⟩ ≠ Real.pi := by
    intro hp
    exact h (Complex.arg_eq_pi_iff.mp hp)
  rw [hconj, Complex.arg_conj, if_neg hpi]
  ring

/-! ## Keypoints and the geometric metrics calculator
(`PostureAnalysisService._analyze_shoulders` / `_analyze_head_position` /
`_analyze_hips` / `_analyze_knees`, services.py lines 138-268). -/

/-- One extracted keypoint: pixel coordinates and MediaPipe visibility.
(The extractor also stores `z` and the normalized coordinates; no embedded
function reads them, so they are omitted here.) -/
structure Pt where
  x : ℚ
  y : ℚ
  visibility : ℚ
deriving DecidableEq

/-- The keypoint dictionary, restricted to the names the four analyzers read.
A `none` field models an absent dictionary key. -/
structure Keypoints where
  nose : Option Pt := none
  left_shoulder : Option Pt := none
  right_shoulder : Option Pt := none
  left_hip : Option Pt := none
  right_hip : Option Pt := none
  left_knee : Option Pt := none
  right_knee : Option Pt := none
  left_ankle : Option Pt := none
  right_ankle : Option Pt := none

/-- Result dictionary of `_analyze_shoulders`. -/
structure ShoulderRes where
  shoulder_slope_degrees : ℝ
  shoulder_height_difference : ℚ
  has_shoulder_imbalance : Bool
  shoulder_confidence : ℚ

/-- `PostureAnalysisService._analyze_shoulders` (services.py 138-167):
slope = `degrees(atan2(dy, dx))` guarded by `dx != 0`, imbalance when
`|height_diff| > 10` pixels, confidence = min visibility. -/
noncomputable def analyzeShoulders (kp : Keypoints) : Option ShoulderRes :=
  match kp.left_shoulder, kp.right_shoulder with
  | some ls, some rs =>
    let height_diff := ls.y - rs.y
    let dx := rs.x - ls.x
    let dy := rs.y - ls.y
    let slope : ℝ := if dx ≠ 0 then atan2deg ((dy : ℚ) : ℝ) ((dx : ℚ) : ℝ) else 0
    some { shoulder_slope_degrees := pyRound slope 2,
           shoulder_height_difference := pyRound height_diff 1,
           has_shoulder_imbalance := decide (|height_diff| > 10),
           shoulder_confidence := min ls.visibility rs.visibility }
  | _, _ => none

/-- Result dictionary of `_analyze_head_position`. -/
structure HeadRes where
  head_tilt_degrees : ℝ
  head_offset_x : ℚ
  head_offset_y : ℚ
  forward_head_posture : Bool
  head_confidence : ℚ

/-- `PostureAnalysisService._analyze_head_position` (services.py 169-199):
tilt = `degrees(atan2(offset_x, |offset_y|))` guarded by `offset_y != 0`,
forward-head flag when `|offset_x| > 15` pixels. -/
noncomputable def analyzeHead (kp : Keypoints) : Option HeadRes :=
  match kp.nose, kp.left_shoulder, kp.right_shoulder with
  | some nose, some ls, some rs =>
    let shoulder_center_x := (ls.x + rs.x) / 2
    let shoulder_center_y := (ls.y + rs.y) / 2
    let head_offset_x := nose.x - shoulder_center_x
    let head_offset_y := nose.y - shoulder_center_y
    let tilt : ℝ :=
      if head_offset_y ≠ 0 then
        atan2deg ((head_offset_x : ℚ) : ℝ) ((|head_offset_y| : ℚ) : ℝ)
      else 0
    some { head_tilt_degrees := pyRound tilt 2,
           head_offset_x := pyRound head_offset_x 1,
           head_offset_y := pyRound head_offset_y 1,
           forward_head_posture := decide (|head_offset_x| > 15),
           head_confidence := nose.visibility }
  | _, _, _ => none

/-- Result dictionary of `_analyze_hips`. -/
structure HipRes where
  hip_slope_degrees : ℝ
  hip_height_difference : ℚ
  has_hip_imbalance : Bool
  hip_confidence : ℚ

/-- `PostureAnalysisService._analyze_hips` (services.py 201-227): same
formula shape as the shoulder analysis, imbalance threshold 8 pixels. -/
noncomputable def analyzeHips (kp : Keypoints) : Option HipRes :=
  match kp.left_hip, kp.right_hip with
  | some lh, some rh =>
    let height_diff := lh.y - rh.y
    let dx := rh.x - lh.x
    let dy := rh.y - lh.y
    let slope : ℝ := if dx ≠ 0 then atan2deg ((dy : ℚ) : ℝ) ((dx : ℚ) : ℝ) else 0
    some { hip_slope_degrees := pyRound slope 2,
           hip_height_difference := pyRound height_diff 1,
           has_hip_imbalance := decide (|height_diff| > 8),
           hip_confidence := min lh.visibility rh.visibility }
  | _, _ => none

/-- Result dictionary of `_analyze_knees`. -/
structure KneeRes where
  knee_valgus_angle : ℚ
  has_knee_valgus : Bool
  knee_distance : ℚ
  ankle_distance : ℚ
  knee_confidence : ℚ
deriving DecidableEq

/-- `PostureAnalysisService._analyze_knees` (services.py 229-268): 1-D
valgus proxy `(1 - knee/ankle) * 100` when positive denominators and
`knee/ankle < 1`, else 0; flag when the indicator exceeds 15. -/
def analyzeKnees (kp : Keypoints) : Option KneeRes :=
  match kp.left_knee, kp.right_knee, kp.left_ankle, kp.right_ankle,
      kp.left_hip, kp.right_hip with
  | some lk, some rk, some la, some ra, some lh, some rh =>
    let knee_dist := |lk.x - rk.x|
    let ankle_dist := |la.x - ra.x|
    let hip_dist := |lh.x - rh.x|
    let valgus_indicator : ℚ :=
      if 0 < ankle_dist ∧ 0 < hip_dist then
        if knee_dist / ankle_dist < 1 then (1 - knee_dist / ankle_dist) * 100 else 0
      else 0
    some { knee_valgus_angle := pyRound (max 0 valgus_indicator) 2,
           has_knee_valgus := decide (valgus_indicator > 15),
           knee_distance := pyRound knee_dist 1,
           ankle_distance := pyRound ankle_dist 1,
           knee_confidence := min lk.visibility rk.visibility }
  | _, _, _, _, _, _ => none

/-- `PostureAnalysisService._calculate_overall_confidence` (services.py
303-307): its `confidences` list — the visibilities of the seven key
landmark indices that fit inside the landmark list. -/
def keyConfidences (landmarks : List Pt) : List ℚ :=
  (([0, 11, 12, 23, 24, 25, 26] : List ℕ).filter
    (fun i => i < landmarks.length)).map
    (fun i => (landmarks.getD i ⟨0, 0, 0⟩).visibility)

/-- `PostureAnalysisService._calculate_overall_confidence`: the arithmetic
mean of the key visibilities, rounded to 3 decimals (0.0 when empty). -/
def overallConfidence (landmarks : List Pt) : ℚ :=
  let confs := keyConfidences landmarks
  if confs.length = 0 then 0
  else pyRound (confs.sum / (confs.length : ℚ)) 3

/-! ## Posture scoring (`_calculate_posture_score`, services.py 270-301) -/

/-- The merged metrics dictionary as consumed by the scoring and
recommendation functions.  `none` models an absent key; the flags use
`.get(key, False)` semantics, so an absent flag and `False` coincide. -/
structure AnalysisMetrics where
  shoulder_slope_degrees : Option ℚ := none
  hip_slope_degrees : Option ℚ := none
  head_tilt_degrees : Option ℚ := none
  knee_valgus_angle : Option ℚ := none
  has_shoulder_imbalance : Bool := false
  has_hip_imbalance : Bool := false
  forward_head_posture : Bool := false
  has_knee_valgus : Bool := false
deriving DecidableEq

/-- `if 'shoulder_slope_degrees' in metrics: score -= min(|slope|/5, 2.5)`
(services.py 275-277); 0 when the key is absent. -/
def shoulderPenalty (o : Option ℚ) : ℚ :=
  match o with
  | some v => min (|v| / 5) (5 / 2)
  | none => 0

/-- `if 'hip_slope_degrees' in metrics: score -= min(|slope|/5, 2.0)`
(services.py 279-281). -/
def hipPenalty (o : Option ℚ) : ℚ :=
  match o with
  | some v => min (|v| / 5) 2
  | none => 0

/-- `if 'head_tilt_degrees' in metrics: score -= min(|tilt|/10, 1.5)`
(services.py 283-285). -/
def headPenalty (o : Option ℚ) : ℚ :=
  match o with
  | some v => min (|v| / 10) (3 / 2)
  | none => 0

/-- `if 'knee_valgus_angle' in metrics: score -= min(valgus/20, 1.5)`
(services.py 287-289); note: no absolute value here. -/
def kneePenalty (o : Option ℚ) : ℚ :=
  match o with
  | some v => min (v / 20) (3 / 2)
  | none => 0

/-- `if metrics.get(flag, False): score -= 1.0` (services.py 292-299). -/
def flagPenalty (b : Bool) : ℚ :=
  if b then 1 else 0

/-- The running `score` value of `_calculate_posture_score` just before the
final `return`: 10.0 minus capped continuous penalties for each present
metric minus 1.0 per set flag. -/
def rawPostureScore (m : AnalysisMetrics) : ℚ :=
  10 - shoulderPenalty m.shoulder_slope_degrees
     - hipPenalty m.hip_slope_degrees
     - headPenalty m.head_tilt_degrees
     - kneePenalty m.knee_valgus_angle
     - flagPenalty m.has_shoulder_imbalance
     - flagPenalty m.has_hip_imbalance
     - flagPenalty m.forward_head_posture

/-- `PostureAnalysisService._calculate_posture_score`: the source returns
`max(1.0, round(score, 1))`. -/
def calculatePostureScore (m : AnalysisMetrics) : ℚ :=
  max 1 (pyRound (rawPostureScore m) 1)

/-- Reference definition, following claim C1's wording literally: apply the
penalties, clamp the result to `[1.0, 10.0]`, then round to one decimal. -/
def referencePostureScore (m : AnalysisMetrics) : ℚ :=
  pyRound (min 10 (max 1 (rawPostureScore m))) 1

/-! ## Service-level recommendations
(`PostureAnalysisService._generate_recommendations`, services.py 309-339):
a list of strings, built in a fixed rule order with a generic fallback. -/

/-- `f"{x:.1f}"`: format a rational with one decimal digit the way Python
formats a float (round half to even). -/
def fmtQ1 (x : ℚ) : String :=
  let n := rhe (x * 10)
  if n < 0 then "-" ++ toString ((-n) / 10) ++ "." ++ toString ((-n) % 10)
  else toString (n / 10) ++ "." ++ toString (n % 10)

/-- Shoulder-imbalance recommendation text (services.py 314-317). -/
def shoulderRecText (m : AnalysisMetrics) : String :=
  "Shoulder imbalance (" ++ fmtQ1 (|m.shoulder_slope_degrees.getD 0|) ++
    "°): Recommended posture correction exercises for shoulders"

/-- Forward-head recommendation text (services.py 320-322). -/
def forwardHeadRecText : String :=
  "Forward head posture: Strengthen neck muscles, check workspace ergonomics"

/-- Hip-imbalance recommendation text (services.py 325-328). -/
def hipRecText (m : AnalysisMetrics) : String :=
  "Hip imbalance (" ++ fmtQ1 (|m.hip_slope_degrees.getD 0|) ++
    "°): Exercises for pelvic stabilization"

/-- Knee-valgus recommendation text (services.py 331-334). -/
def kneeRecText (m : AnalysisMetrics) : String :=
  "Possible knee valgus (" ++ fmtQ1 (m.knee_valgus_angle.getD 0) ++
    "): Consult a doctor and strengthen hip muscles"

/-- Generic fallback text (services.py 337). -/
def normalRangeText : String :=
  "Posture is within normal range. Continue maintaining an active lifestyle."

/-- `PostureAnalysisService._generate_recommendations`: sequential appends
in the order shoulder, forward-head, hip, knee, then the fallback when the
list is still empty. -/
def generateRecommendations (m : AnalysisMetrics) : List String :=
  let recs : List String := []
  let recs := if m.has_shoulder_imbalance then recs ++ [shoulderRecText m] else recs
  let recs := if m.forward_head_posture then recs ++ [forwardHeadRecText] else recs
  let recs := if m.has_hip_imbalance then recs ++ [hipRecText m] else recs
  let recs := if m.has_knee_valgus then recs ++ [kneeRecText m] else recs
  if recs = [] then [normalRangeText] else recs

/-! ## `RecommendationEngine.generate_posture_recommendations`
(services.py 425-474): structured recommendation dictionaries. -/

/-- A recommendation record: the dictionary shape used both by the engine
and by the persisted `AIRecommendation` rows. -/
structure Recommendation where
  category : String
  priority : String
  title : String
  description : String
  action_steps : List String
deriving DecidableEq

/-- The attributes of a `PostureAnalysis` object that
`generate_posture_recommendations` reads (the `hasattr` guards are always
true on a model instance, so the flags are plain booleans here). -/
structure EnginePostureInput where
  has_shoulder_imbalance : Bool
  shoulder_slope_degrees : ℚ
  has_hip_imbalance : Bool
  hip_slope_degrees : ℚ
  has_knee_valgus : Bool

/-- The engine's shoulder rule output (services.py 431-442). -/
def engineShoulderRec (p : EnginePostureInput) : Recommendation :=
  { category := "posture", priority := "high",
    title := "Shoulder imbalance correction",
    description := "Detected shoulder tilt of " ++
      fmtQ1 (|p.shoulder_slope_degrees|) ++ "°",
    action_steps :=
      ["Perform \"face pull\" exercise: 3 sets of 15 repetitions",
       "Chest muscle stretching 2-3 times daily for 30 seconds",
       "Strengthen rear delts and rhomboid muscles",
       "Monitor shoulder position throughout the day"] }

/-- The engine's hip rule output (services.py 446-457). -/
def engineHipRec (p : EnginePostureInput) : Recommendation :=
  { category := "posture", priority := "medium",
    title := "Pelvic position correction",
    description := "Detected pelvic area imbalance of " ++
      fmtQ1 (|p.hip_slope_degrees|) ++ "°",
    action_steps :=
      ["Side plank on each side: 3 sets of 30-60 seconds",
       "Strengthen gluteus medius",
       "Stretch quadratus lumborum",
       "Check workspace ergonomics"] }

/-- The engine's knee rule output (services.py 461-472). -/
def engineKneeRec : Recommendation :=
  { category := "exercise", priority := "high",
    title := "Knee valgus correction",
    description := "Detected tendency for knee inward collapse",
    action_steps :=
      ["Hip abduction in lying position: 3x15",
       "Squats with knee control",
       "Strengthen outer thigh muscles",
       "IT-band stretching"] }

/-- `RecommendationEngine.generate_posture_recommendations`: sequential
appends for the shoulder, hip and knee rules (there is no forward-head rule
and no fallback in this function). -/
def generatePostureRecommendations (p : EnginePostureInput) : List Recommendation :=
  let recs : List Recommendation := []
  let recs := if p.has_shoulder_imbalance then recs ++ [engineShoulderRec p] else recs
  let recs := if p.has_hip_imbalance then recs ++ [engineHipRec p] else recs
  let recs := if p.has_knee_valgus then recs ++ [engineKneeRec] else recs
  recs

/-! ## Body composition (`BodyCompositionService`, services.py 342-406) -/

/-- The gender codes the code compares against (`'M'` / `'F'`). -/
inductive Gender where
  | M : Gender
  | F : Gender
deriving DecidableEq

/-- The profile fields read by `estimate_body_composition`: `bmi`, `age`
(nullable, defaulted through `age or 25`), `gender` (nullable). -/
structure UserProfileIn where
  bmi : ℚ
  age : Option ℚ
  gender : Option Gender

/-- `BodyCompositionService.estimate_body_composition`, profile branch
(services.py 351-366): returns
(`estimated_body_fat`, `estimated_muscle_mass`). `age or 25` means a `None`
or zero age falls back to 25. -/
def estimateBodyFatAndMuscle (p : UserProfileIn) : ℚ × ℚ :=
  let age : ℚ := match p.age with
    | some a => if a = 0 then 25 else a
    | none => 25
  let body_fat : ℚ :=
    if p.gender = some Gender.M then
      (120 / 100) * p.bmi + (23 / 100) * age - 162 / 10
    else
      (120 / 100) * p.bmi + (23 / 100) * age - 54 / 10
  let estimated_body_fat := max 5 (min 50 (pyRound body_fat 1))
  let muscle_mass := 100 - estimated_body_fat
  (estimated_body_fat, pyRound (muscle_mass * (45 / 100)) 1)

/-- Result dictionary of `_analyze_measurements`. -/
structure MeasurementsAnalysis where
  visceral_fat_level : ℤ
  body_shape_type : String
deriving DecidableEq

/-- `BodyCompositionService._analyze_measurements` (services.py 379-406).
The guard `if measurements.whr:` is Python truthiness, so a missing or zero
WHR yields the empty dictionary (`none` here).  Visceral fat uses
gender-specific breakpoints; the shape thresholds are gender-agnostic. -/
def analyzeMeasurements (whr : Option ℚ) (gender : Option Gender) :
    Option MeasurementsAnalysis :=
  match whr with
  | some w =>
    if w = 0 then none
    else
      let visceral_fat : ℚ :=
        if gender = some Gender.M then
          if w > 1 then min 30 (15 + (w - 1) * 20) else max 1 (w * 12)
        else
          if w > 85 / 100 then min 30 (10 + (w - 85 / 100) * 25)
          else max 1 (w * 10)
      let shape : String :=
        if w > 85 / 100 then "apple"
        else if w < 75 / 100 then "pear"
        else "rectangle"
      some { visceral_fat_level := rhe visceral_fat, body_shape_type := shape }
  | none => none

/-- Reference visceral-fat definition following claim C7's wording: the
gender-specific piecewise-linear function of WHR, clamped to `[1, 30]`,
then rounded to an integer. -/
def claimedVisceral (w : ℚ) (gender : Option Gender) : ℤ :=
  rhe (max 1 (min 30
    (if gender = some Gender.M then
      (if w > 1 then 15 + (w - 1) * 20 else w * 12)
    else
      (if w > 85 / 100 then 10 + (w - 85 / 100) * 25 else w * 10))))

/-- Reference body-shape classification following claim C7's wording:
gender-agnostic thresholds. -/
def claimedShape (w : ℚ) : String :=
  if w > 85 / 100 then "apple" else if w < 75 / 100 then "pear" else "rectangle"

/-! ## Progress score (`ProgressTrackingService._calculate_overall_progress_score`,
services.py 674-689; the same arithmetic appears in
`ProgressTrackingView._calculate_progress_metrics`, views.py 557-566). -/

/-- The weight step of the source: when a weight change is present and
negative, add `min(|weight_change| * 0.5, 2.5)` to the running score. -/
def weightStep (score : ℚ) (weight_change : Option ℚ) : ℚ :=
  match weight_change with
  | some w => if w < 0 then score + min (|w| * (1 / 2)) (5 / 2) else score
  | none => score

/-- The posture step of the source: when a posture change is present, add
`min(posture_change * 0.5, 2.5)` to the running score. -/
def postureStep (score : ℚ) (posture_change : Option ℚ) : ℚ :=
  match posture_change with
  | some p => score + min (p * (1 / 2)) (5 / 2)
  | none => score

/-- The overall progress score computed by the source: base 5.0, the two
bonus steps, then `min(10.0, max(1.0, round(score, 1)))`. -/
def overallProgressScore (weight_change posture_change : Option ℚ) : ℚ :=
  min 10 (max 1 (pyRound (postureStep (weightStep 5 weight_change) posture_change) 1))

/-- The weight bonus as claim C8 words it (added iff the delta is
negative). -/
def claimedWeightBonus (weight_change : Option ℚ) : ℚ :=
  match weight_change with
  | some w => if w < 0 then min (|w| * (1 / 2)) (5 / 2) else 0
  | none => 0

/-- The posture bonus as claim C8 words it. -/
def claimedPostureBonus (posture_change : Option ℚ) : ℚ :=
  match posture_change with
  | some p => min (p * (1 / 2)) (5 / 2)
  | none => 0

/-- The progress score exactly as claim C8 words it: the base plus the two
bonuses, clamped to `[1.0, 10.0]` — with no rounding step. -/
def claimedProgressScore (weight_change posture_change : Option ℚ) : ℚ :=
  min 10 (max 1 (5 + claimedWeightBonus weight_change +
    claimedPostureBonus posture_change))

/-! ## The posture-analysis view (`PostureAnalysisView.post`, views.py
83-201): assembling per-view results into one stored record. -/

/-- The per-view analysis dictionary as read by the view: either an error
(`Sum.inl` holds the message, as produced e.g. for "No pose detected in
image") or the successful metric dictionary. -/
structure ViewAnalysis where
  shoulder_slope_degrees : Option ℚ := none
  head_tilt_degrees : Option ℚ := none
  knee_valgus_angle : Option ℚ := none
  hip_slope_degrees : Option ℚ := none
  posture_score : Option ℚ := none
  recommendations : List String := []
deriving DecidableEq

/-- The mutable `PostureAnalysis` model fields the view writes. -/
structure PostureRecord where
  shoulder_slope_degrees : Option ℚ := none
  head_tilt_degrees : Option ℚ := none
  knee_valgus_angle : Option ℚ := none
  hip_slope_degrees : Option ℚ := none
  posture_score : Option ℚ := none
deriving DecidableEq

/-- The response payload of a successful `PostureAnalysisView.post`. -/
structure PostResponse where
  record : PostureRecord
  created_recommendations : List Recommendation
  total_recommendations : ℕ
deriving DecidableEq

/-- Python float-field truthiness: `None` and `0` are falsy. -/
def pyTruthy (o : Option ℚ) : Bool :=
  match o with
  | none => false
  | some x => if x = 0 then false else true

/-- An `AIRecommendation` row created from a front-view recommendation
string (views.py 131-139): fixed category/priority/title. -/
def mediumPostureRec (text : String) : Recommendation :=
  { category := "posture", priority := "medium",
    title := "Рекомендация по осанке", description := text,
    action_steps := [text] }

/-- The fallback `AIRecommendation` row (views.py 174-182). -/
def basicFallbackRec : Recommendation :=
  { category := "posture", priority := "low",
    title := "Базовая рекомендация",
    description := "Не удалось выполнить детальный анализ. Рекомендуется регулярная физическая активность.",
    action_steps := ["Выполняйте ежедневную зарядку", "Следите за осанкой во время работы"] }

/-- The front-photo branch of `PostureAnalysisView.post` (views.py
113-146): on success store the shoulder/head/knee metrics and the score and
persist up to three medium-priority recommendations; on error (or no
photo) store nothing. -/
def frontStep (front : Option (Sum String ViewAnalysis)) :
    PostureRecord × List Recommendation × ℕ :=
  match front with
  | some (Sum.inr a) =>
    ({ shoulder_slope_degrees := a.shoulder_slope_degrees,
       head_tilt_degrees := a.head_tilt_degrees,
       knee_valgus_angle := a.knee_valgus_angle,
       hip_slope_degrees := none,
       posture_score := a.posture_score },
     (a.recommendations.take 3).map mediumPostureRec,
     (a.recommendations.take 3).length)
  | _ => ({}, [], 0)

/-- The back-photo branch of `PostureAnalysisView.post` (views.py
148-169): on success fill the hip slope when the stored one is falsy
(`if not posture_analysis.hip_slope_degrees`) and average the scores
(`back_results.get('posture_score', 5)`). -/
def backStep (st1 : PostureRecord) (back : Option (Sum String ViewAnalysis)) :
    PostureRecord :=
  match back with
  | some (Sum.inr b) =>
    let stH :=
      if pyTruthy st1.hip_slope_degrees then st1
      else { st1 with hip_slope_degrees := b.hip_slope_degrees }
    let backScore := b.posture_score.getD 5
    if pyTruthy stH.posture_score then
      { stH with posture_score := some ((stH.posture_score.getD 0 + backScore) / 2) }
    else
      { stH with posture_score := some backScore }
  | _ => st1

/-- The fallback at the end of `PostureAnalysisView.post` (views.py
171-183): a falsy final score becomes exactly 5.0 with a single
low-priority generic recommendation and `total_recommendations = 1`. -/
def fallbackStep (st2 : PostureRecord) (recs : List Recommendation)
    (total : ℕ) : PostResponse :=
  if pyTruthy st2.posture_score then ⟨st2, recs, total⟩
  else ⟨{ st2 with posture_score := some 5 }, recs ++ [basicFallbackRec], 1⟩

/-- `PostureAnalysisView.post` (views.py 83-201), over the outcome of each
photo's analysis (`none` = photo absent): reject when no photo exists, else
run the front branch, the back branch and the fallback. -/
def posturePost (front back : Option (Sum String ViewAnalysis)) :
    Sum String PostResponse :=
  if front = none ∧ back = none then
    Sum.inl "Необходимо загрузить хотя бы одно фото (спереди или сзади)"
  else
    Sum.inr (fallbackStep (backStep (frontStep front).1 back)
      (frontStep front).2.1 (frontStep front).2.2)

/-! ## Claim C1: the posture score matches the reference definition. -/

/-- C1: for every metrics record (with the knee-valgus indicator
nonnegative, as `_analyze_knees` always produces it), the posture score of
`_calculate_posture_score` equals the reference definition: 10.0 minus the
four capped continuous penalties for the present metrics, minus a fixed 1.0
per set flag, clamped to [1.0, 10.0] and rounded to one decimal. -/
theorem posture_score_matches_reference (m : AnalysisMetrics)
    (h : ∀ v, m.knee_valgus_angle = some v → 0 ≤ v) :
    calculatePostureScore m = referencePostureScore m := by
  have h1 : (0 : ℚ) ≤ shoulderPenalty m.shoulder_slope_degrees := by
    unfold shoulderPenalty
    cases m.shoulder_slope_degrees with
    | none => exact le_rfl
    | some v => exact le_min (by positivity) (by norm_num)
  have h2 : (0 : ℚ) ≤ hipPenalty m.hip_slope_degrees := by
    unfold hipPenalty
    cases m.hip_slope_degrees with
    | none => exact le_rfl
    | some v => exact le_min (by positivity) (by norm_num)
  have h3 : (0 : ℚ) ≤ headPenalty m.head_tilt_degrees := by
    unfold headPenalty
    cases m.head_tilt_degrees with
    | none => exact le_rfl
    | some v => exact le_min (by positivity) (by norm_num)
  have h4 : (0 : ℚ) ≤ kneePenalty m.knee_valgus_angle := by
    unfold kneePenalty
    cases hk : m.knee_valgus_angle with
    | none => exact le_rfl
    | some v =>
      have hv : (0 : ℚ) ≤ v := h v hk
      exact le_min (by positivity) (by norm_num)
  have h5 : (0 : ℚ) ≤ flagPenalty m.has_shoulder_imbalance := by
    unfold flagPenalty
    split <;> norm_num
  have h6 : (0 : ℚ) ≤ flagPenalty m.has_hip_imbalance := by
    unfold flagPenalty
    split <;> norm_num
  have h7 : (0 : ℚ) ≤ flagPenalty m.forward_head_posture := by
    unfold flagPenalty
    split <;> norm_num
  have hraw : rawPostureScore m ≤ 10 := by
    unfold rawPostureScore
    linarith
  unfold calculatePostureScore referencePostureScore
  rw [min_eq_right (max_le (by norm_num) hraw), pyRound_max_one]

/-- Witness for C1 at a concrete metrics record. -/
theorem posture_score_matches_reference_witness :
    (∀ v, (AnalysisMetrics.mk (some 3) none (some 2) (some 40)
        true false false false).knee_valgus_angle = some v → 0 ≤ v) ∧
    calculatePostureScore
        (AnalysisMetrics.mk (some 3) none (some 2) (some 40) true false false false) =
      referencePostureScore
        (AnalysisMetrics.mk (some 3) none (some 2) (some 40) true false false false) := by
  have hk : ∀ v : ℚ, (AnalysisMetrics.mk (some 3) none (some 2) (some 40)
      true false false false).knee_valgus_angle = some v → 0 ≤ v := by
    intro v hv
    injection hv with hv2
    rw [← hv2]
    norm_num
  exact ⟨hk, posture_score_matches_reference _ hk⟩

/-! ## Claim C7: WHR-based visceral fat level and body-shape class. -/

/-- C7: for a present (truthy) WHR, `_analyze_measurements` yields exactly
the claim's reference: the gender-specific piecewise-linear visceral-fat
function clamped to [1, 30] and rounded to an integer, and the
gender-agnostic shape thresholds; in particular WHR = 0.9 with a
female-coded profile gives shape "apple" and visceral level 11. -/
theorem whr_visceral_and_shape (w : ℚ) (g : Option Gender) (hw : w ≠ 0) :
    analyzeMeasurements (some w) g =
      some ⟨claimedVisceral w g, claimedShape w⟩ ∧
    analyzeMeasurements (some (9 / 10)) (some Gender.F) =
      some ⟨11, "apple"⟩ := by
  constructor
  · have hv : (if g = some Gender.M then
          (if w > 1 then min 30 (15 + (w - 1) * 20) else max 1 (w * 12))
        else
          (if w > 85 / 100 then min 30 (10 + (w - 85 / 100) * 25)
           else max 1 (w * 10))) =
        max 1 (min 30
          (if g = some Gender.M then
            (if w > 1 then 15 + (w - 1) * 20 else w * 12)
          else
            (if w > 85 / 100 then 10 + (w - 85 / 100) * 25 else w * 10))) := by
      by_cases hg : g = some Gender.M
      · rw [if_pos hg, if_pos hg]
        by_cases h1 : w > 1
        · rw [if_pos h1, if_pos h1, max_eq_right]
          exact le_min (by norm_num) (by nlinarith)
        · rw [if_neg h1, if_neg h1, min_eq_right]
          push_neg at h1
          nlinarith
      · rw [if_neg hg, if_neg hg]
        by_cases h1 : w > 85 / 100
        · rw [if_pos h1, if_pos h1, max_eq_right]
          exact le_min (by norm_num) (by nlinarith)
        · rw [if_neg h1, if_neg h1, min_eq_right]
          push_neg at h1
          nlinarith
    simp only [analyzeMeasurements, claimedVisceral, claimedShape]
    rw [if_neg hw, hv]
  · simp only [analyzeMeasurements]
    rw [if_neg (by norm_num : ¬((9 / 10 : ℚ) = 0)),
      if_neg (by decide : ¬(some Gender.F = some Gender.M)),
      if_pos (by norm_num : (9 / 10 : ℚ) > 85 / 100)]
    have h1 : min (30 : ℚ) (10 + (9 / 10 - 85 / 100) * 25) = 45 / 4 := by
      rw [min_eq_right (by norm_num)]
      norm_num
    have h2 : rhe (45 / 4 : ℚ) = 11 := rhe_eval_low _ 11 (by norm_num) (by norm_num)
    rw [h1, h2]
    norm_num

/-- Witness for C7 at WHR = 0.9, female-coded profile. -/
theorem whr_visceral_and_shape_witness :
    analyzeMeasurements (some (9 / 10)) (some Gender.F) =
      some ⟨claimedVisceral (9 / 10) (some Gender.F), claimedShape (9 / 10)⟩ ∧
    analyzeMeasurements (some (9 / 10)) (some Gender.F) =
      some ⟨11, "apple"⟩ :=
  whr_visceral_and_shape (9 / 10) (some Gender.F) (by norm_num)

/-! ## Claim C8: the aggregate progress score. -/

/-- C8 counterexample: with no weight change and a posture delta of 0.1 the
code rounds the sum 5.05 to one decimal (half-to-even gives 5.0), so the
claim's unrounded clamped value 5.05 is not what the code returns. -/
theorem progress_score_rounding_counterexample :
    overallProgressScore none (some (1 / 10)) = 5 ∧
    claimedProgressScore none (some (1 / 10)) = 101 / 20 ∧
    (5 : ℚ) ≠ 101 / 20 := by
  have hmin : min ((1 / 10 : ℚ) * (1 / 2)) (5 / 2) = 1 / 20 := by
    rw [min_eq_left (by norm_num)]
    norm_num
  have htie : ((5 + 1 / 20 : ℚ) * 10 ^ 1) = ((50 : ℤ) : ℚ) + 1 / 2 := by norm_num
  have h3 : rhe ((5 + 1 / 20 : ℚ) * 10 ^ 1) = 50 := by
    rw [rhe_eval_tie _ 50 htie]
    norm_num
  have h4 : pyRound (5 + 1 / 20 : ℚ) 1 = 5 := by
    rw [pyRound_eval _ _ _ h3]
    norm_num
  refine ⟨?_, ?_, by norm_num⟩
  · simp only [overallProgressScore, weightStep, postureStep]
    rw [hmin, h4]
    norm_num
  · simp only [claimedProgressScore, claimedWeightBonus, claimedPostureBonus]
    rw [hmin]
    rw [max_eq_right (by norm_num : (1 : ℚ) ≤ 5 + 0 + 1 / 20),
      min_eq_right (by norm_num : (5 : ℚ) + 0 + 1 / 20 ≤ 10)]
    norm_num

/-- C8 amended: the aggregate progress score equals 5.0 plus the
weight-loss bonus (only for negative weight delta) plus the posture bonus,
ROUNDED TO ONE DECIMAL and then clamped to [1.0, 10.0]; the claim's example
(weight −3.0, posture +1.0) gives exactly 7.0. -/
theorem progress_score_rounded_formula (wc pc : Option ℚ) :
    overallProgressScore wc pc =
      min 10 (max 1 (pyRound
        (5 + claimedWeightBonus wc + claimedPostureBonus pc) 1)) ∧
    overallProgressScore (some (-3)) (some 1) = 7 := by
  constructor
  · have hstep : postureStep (weightStep 5 wc) pc =
        5 + claimedWeightBonus wc + claimedPostureBonus pc := by
      cases wc with
      | none =>
        cases pc with
        | none =>
          simp [weightStep, postureStep, claimedWeightBonus, claimedPostureBonus]
        | some p =>
          simp [weightStep, postureStep, claimedWeightBonus, claimedPostureBonus,
            add_assoc]
      | some w =>
        cases pc with
        | none =>
          simp only [weightStep, postureStep, claimedWeightBonus, claimedPostureBonus]
          split_ifs <;> ring
        | some p =>
          simp only [weightStep, postureStep, claimedWeightBonus, claimedPostureBonus]
          split_ifs <;> ring
    unfold overallProgressScore
    rw [hstep]
  · have hm1 : min ((|(-3 : ℚ)|) * (1 / 2)) (5 / 2) = 3 / 2 := by
      rw [abs_of_nonpos (by norm_num), min_eq_left (by norm_num)]
      norm_num
    have hm2 : min ((1 : ℚ) * (1 / 2)) (5 / 2) = 1 / 2 := by
      rw [min_eq_left (by norm_num)]
      norm_num
    simp only [overallProgressScore, weightStep, postureStep,
      if_pos (by norm_num : (-3 : ℚ) < 0)]
    rw [hm1, hm2]
    have h7 : (5 + 3 / 2 + 1 / 2 : ℚ) = 7 := by norm_num
    rw [h7]
    have h8 : rhe ((7 : ℚ) * 10 ^ 1) = 70 :=
      rhe_eval_low _ 70 (by norm_num) (by norm_num)
    rw [pyRound_eval _ _ _ h8]
    norm_num

/-! ## Claim C2: the recommendation rule engines. -/

/-- C2 counterexample: on an input with no flag set,
`RecommendationEngine.generate_posture_recommendations` returns the EMPTY
list — there is no generic "posture within normal range" fallback (and no
forward-head rule) in this function, contradicting the claim. -/
theorem engine_empty_output_counterexample :
    generatePostureRecommendations ⟨false, 0, false, 0, false⟩ = [] := rfl

/-- C2 amended: the service-level generator `_generate_recommendations`
evaluates its rules in the fixed order shoulder imbalance, forward-head,
hip imbalance, knee valgus, each firing rule contributing at most one text
recommendation (interpolating the measured angle), with exactly one generic
fallback when no rule fires (never an empty list); the separate
`RecommendationEngine.generate_posture_recommendations` evaluates only
shoulder imbalance, hip imbalance, knee valgus — no forward-head rule —
each with its fixed category/priority/title/description/action steps, and
returns the empty list when no rule fires. -/
theorem recommendation_rules_structure (m : AnalysisMetrics)
    (p : EnginePostureInput) :
    generateRecommendations m =
      (if ((if m.has_shoulder_imbalance then [shoulderRecText m] else []) ++
           (if m.forward_head_posture then [forwardHeadRecText] else []) ++
           (if m.has_hip_imbalance then [hipRecText m] else []) ++
           (if m.has_knee_valgus then [kneeRecText m] else [])) = [] then
        [normalRangeText]
      else
        (if m.has_shoulder_imbalance then [shoulderRecText m] else []) ++
        (if m.forward_head_posture then [forwardHeadRecText] else []) ++
        (if m.has_hip_imbalance then [hipRecText m] else []) ++
        (if m.has_knee_valgus then [kneeRecText m] else [])) ∧
    generateRecommendations m ≠ [] ∧
    generatePostureRecommendations p =
      (if p.has_shoulder_imbalance then [engineShoulderRec p] else []) ++
      (if p.has_hip_imbalance then [engineHipRec p] else []) ++
      (if p.has_knee_valgus then [engineKneeRec] else []) := by
  refine ⟨?_, ?_, ?_⟩
  · cases hb1 : m.has_shoulder_imbalance <;>
      cases hb2 : m.forward_head_posture <;>
      cases hb3 : m.has_hip_imbalance <;>
      cases hb4 : m.has_knee_valgus <;>
      simp [generateRecommendations, hb1, hb2, hb3, hb4]
  · cases hb1 : m.has_shoulder_imbalance <;>
      cases hb2 : m.forward_head_posture <;>
      cases hb3 : m.has_hip_imbalance <;>
      cases hb4 : m.has_knee_valgus <;>
      simp [generateRecommendations, hb1, hb2, hb3, hb4]
  · cases hc1 : p.has_shoulder_imbalance <;>
      cases hc2 : p.has_hip_imbalance <;>
      cases hc3 : p.has_knee_valgus <;>
      simp [generatePostureRecommendations, hc1, hc2, hc3]

/-! ## Claim C3: the no-detection fallback of the posture view. -/

/-- C3: when the front photo's analysis fails (e.g. "No pose detected in
image") and there is no successful back analysis either, the view responds
normally (no hard failure) with a posture score of exactly 5.0 and exactly
one low-priority generic recommendation. -/
theorem no_detection_fallback (e : String)
    (back : Option (Sum String ViewAnalysis))
    (hb : back = none ∨ ∃ e2, back = some (Sum.inl e2)) :
    posturePost (some (Sum.inl e)) back =
      Sum.inr ⟨{ posture_score := some 5 }, [basicFallbackRec], 1⟩ ∧
    basicFallbackRec.priority = "low" := by
  rcases hb with hb | ⟨e2, hb⟩ <;> subst hb <;> exact ⟨rfl, rfl⟩

/-- Witness for C3: no pose detected on the front photo, no back photo. -/
theorem no_detection_fallback_witness :
    posturePost (some (Sum.inl "No pose detected in image")) none =
      Sum.inr ⟨{ posture_score := some 5 }, [basicFallbackRec], 1⟩ ∧
    basicFallbackRec.priority = "low" :=
  no_detection_fallback "No pose detected in image" none (Or.inl rfl)

/-! ## Claim C4: combining front- and back-view analyses. -/

/-- C4 counterexample: the front analysis produced the hip slope 3, yet
the stored record holds the back view's hip slope 7 — the view never
persists the front view's hip slope, so the front view does NOT take
precedence as the claim states (the score-averaging half does hold:
(8 + 6) / 2 = 7). -/
theorem back_hip_overwrite_counterexample :
    posturePost
        (some (Sum.inr { shoulder_slope_degrees := some 2,
                         head_tilt_degrees := some 1,
                         knee_valgus_angle := some 0,
                         hip_slope_degrees := some 3,
                         posture_score := some 8,
                         recommendations := [] }))
        (some (Sum.inr { hip_slope_degrees := some 7,
                         posture_score := some 6 })) =
      Sum.inr ⟨{ shoulder_slope_degrees := some 2,
                 head_tilt_degrees := some 1,
                 knee_valgus_angle := some 0,
                 hip_slope_degrees := some 7,
                 posture_score := some 7 }, [], 0⟩ ∧
    (some (7 : ℚ) : Option ℚ) ≠ some 3 := by
  constructor
  · simp only [posturePost]
    rw [if_neg (by simp)]
    simp only [frontStep, backStep, fallbackStep, pyTruthy, Option.getD,
      List.take, List.map, List.length]
    norm_num
  · simp

/-- C4 amended: when both views succeed (with positive scores, as real
scores always are), the stored overall score is the arithmetic mean of the
two per-view scores, and the stored hip-slope metric always comes from the
back view — the caller never persists a front-view hip slope. -/
theorem both_views_mean_and_back_hip (fa ba : ViewAnalysis) (s t : ℚ)
    (hfs : fa.posture_score = some s) (hs : 0 < s)
    (hbs : ba.posture_score = some t) (ht : 0 < t) :
    ∃ resp : PostResponse,
      posturePost (some (Sum.inr fa)) (some (Sum.inr ba)) = Sum.inr resp ∧
      resp.record.posture_score = some ((s + t) / 2) ∧
      resp.record.hip_slope_degrees = ba.hip_slope_degrees := by
  have hsne : (s : ℚ) ≠ 0 := hs.ne'
  have hmne : ((s + t) / 2 : ℚ) ≠ 0 := by positivity
  refine ⟨⟨{ shoulder_slope_degrees := fa.shoulder_slope_degrees,
              head_tilt_degrees := fa.head_tilt_degrees,
              knee_valgus_angle := fa.knee_valgus_angle,
              hip_slope_degrees := ba.hip_slope_degrees,
              posture_score := some ((s + t) / 2) },
            (fa.recommendations.take 3).map mediumPostureRec,
            (fa.recommendations.take 3).length⟩, ?_, rfl, rfl⟩
  simp only [posturePost, frontStep, backStep, fallbackStep]
  rw [if_neg (by simp)]
  simp [pyTruthy, hfs, hbs, hsne, hmne]

/-- Witness for C4 amended at concrete per-view analyses. -/
theorem both_views_mean_and_back_hip_witness :
    ∃ resp : PostResponse,
      posturePost
          (some (Sum.inr ({ hip_slope_degrees := some 3,
                            posture_score := some 8 } : ViewAnalysis)))
          (some (Sum.inr ({ hip_slope_degrees := some 7,
                            posture_score := some 6 } : ViewAnalysis))) =
        Sum.inr resp ∧
      resp.record.posture_score = some ((8 + 6) / 2) ∧
      resp.record.hip_slope_degrees =
        ({ hip_slope_degrees := some 7,
           posture_score := some 6 } : ViewAnalysis).hip_slope_degrees :=
  both_views_mean_and_back_hip _ _ 8 6 rfl (by norm_num) rfl (by norm_num)

/-! ## Claim C5: the conservative-confidence rule. -/

/-- C5 counterexample: a landmark set whose seven key visibilities are six
ones and one zero.  The minimum visibility among the landmarks feeding the
overall confidence is 0, but `_calculate_overall_confidence` reports the
rounded MEAN 6/7 ≈ 0.857 — an average, not a minimum. -/
theorem overall_confidence_counterexample :
    (0 : ℚ) ∈ keyConfidences
      (List.replicate 26 (⟨0, 0, 1⟩ : Pt) ++ [⟨0, 0, 0⟩]) ∧
    (∀ c ∈ keyConfidences
      (List.replicate 26 (⟨0, 0, 1⟩ : Pt) ++ [⟨0, 0, 0⟩]), (0 : ℚ) ≤ c) ∧
    overallConfidence
      (List.replicate 26 (⟨0, 0, 1⟩ : Pt) ++ [⟨0, 0, 0⟩]) = 857 / 1000 ∧
    (857 / 1000 : ℚ) ≠ 0 := by
  have hk : keyConfidences
      (List.replicate 26 (⟨0, 0, 1⟩ : Pt) ++ [⟨0, 0, 0⟩]) =
      [1, 1, 1, 1, 1, 1, 0] := rfl
  refine ⟨?_, ?_, ?_, by norm_num⟩
  · rw [hk]
    simp
  · rw [hk]
    intro c hc
    simp only [List.mem_cons, List.not_mem_nil, or_false] at hc
    rcases hc with h | h | h | h | h | h | h <;> rw [h] <;> norm_num
  · unfold overallConfidence
    rw [hk]
    have hlen : ([(1 : ℚ), 1, 1, 1, 1, 1, 0].length = 0) = False := by simp
    rw [if_neg (by simp)]
    have hsum : ([(1 : ℚ), 1, 1, 1, 1, 1, 0].sum /
        (([(1 : ℚ), 1, 1, 1, 1, 1, 0].length : ℕ) : ℚ)) = 6 / 7 := by
      simp
      norm_num
    rw [hsum]
    have h857 : rhe ((6 / 7 : ℚ) * 10 ^ 3) = 857 :=
      rhe_eval_low _ 857 (by norm_num) (by norm_num)
    rw [pyRound_eval _ _ _ h857]
    norm_num

/-- C5 amended: the shoulder, hip and knee region confidences are the
minimum visibility among their contributing landmarks (conservative rule),
but the overall detection confidence is the rounded arithmetic MEAN of the
seven key landmark visibilities, not their minimum. -/
theorem confidence_min_and_overall_mean :
    (∀ (kp : Keypoints) (l r : Pt), kp.left_shoulder = some l →
      kp.right_shoulder = some r →
      (analyzeShoulders kp).map (fun o => o.shoulder_confidence) =
        some (min l.visibility r.visibility)) ∧
    (∀ (kp : Keypoints) (l r : Pt), kp.left_hip = some l →
      kp.right_hip = some r →
      (analyzeHips kp).map (fun o => o.hip_confidence) =
        some (min l.visibility r.visibility)) ∧
    (∀ (kp : Keypoints) (lk rk la ra lh rh : Pt), kp.left_knee = some lk →
      kp.right_knee = some rk → kp.left_ankle = some la →
      kp.right_ankle = some ra → kp.left_hip = some lh →
      kp.right_hip = some rh →
      (analyzeKnees kp).map (fun o => o.knee_confidence) =
        some (min lk.visibility rk.visibility)) ∧
    (∀ L : List Pt, keyConfidences L ≠ [] →
      overallConfidence L =
        pyRound ((keyConfidences L).sum / ((keyConfidences L).length : ℚ)) 3) := by
  refine ⟨?_, ?_, ?_, ?_⟩
  · intro kp l r h1 h2
    obtain ⟨nose, ls, rs, lh, rh, lk, rk, la, ra⟩ := kp
    simp only at h1 h2
    subst h1
    subst h2
    simp [analyzeShoulders]
  · intro kp l r h1 h2
    obtain ⟨nose, ls, rs, lh, rh, lk, rk, la, ra⟩ := kp
    simp only at h1 h2
    subst h1
    subst h2
    simp [analyzeHips]
  · intro kp lk rk la ra lh rh h1 h2 h3 h4 h5 h6
    obtain ⟨nose, ls, rs, lh0, rh0, lk0, rk0, la0, ra0⟩ := kp
    simp only at h1 h2 h3 h4 h5 h6
    subst h1
    subst h2
    subst h3
    subst h4
    subst h5
    subst h6
    simp [analyzeKnees]
  · intro L hL
    have hlen : ¬((keyConfidences L).length = 0) := by
      simpa [List.length_eq_zero] using hL
    unfold overallConfidence
    rw [if_neg hlen]

/-- A sample keypoint set with every analyzer input present. -/
def fullSampleKeypoints : Keypoints where
  nose := some ⟨0, 0, 1⟩
  left_shoulder := some ⟨1, 2, 1 / 2⟩
  right_shoulder := some ⟨3, 4, 1 / 4⟩
  left_hip := some ⟨5, 6, 1 / 8⟩
  right_hip := some ⟨7, 8, 1⟩
  left_knee := some ⟨9, 10, 3 / 4⟩
  right_knee := some ⟨11, 12, 1 / 3⟩
  left_ankle := some ⟨13, 14, 1⟩
  right_ankle := some ⟨15, 16, 1⟩

/-- Witness for C5 amended at a concrete keypoint set and landmark list. -/
theorem confidence_min_and_overall_mean_witness :
    (analyzeShoulders fullSampleKeypoints).map
      (fun o => o.shoulder_confidence) = some (min (1 / 2) (1 / 4)) ∧
    (analyzeHips fullSampleKeypoints).map
      (fun o => o.hip_confidence) = some (min (1 / 8) 1) ∧
    (analyzeKnees fullSampleKeypoints).map
      (fun o => o.knee_confidence) = some (min (3 / 4) (1 / 3)) ∧
    overallConfidence [(⟨0, 0, 1⟩ : Pt)] =
      pyRound ((keyConfidences [(⟨0, 0, 1⟩ : Pt)]).sum /
        ((keyConfidences [(⟨0, 0, 1⟩ : Pt)]).length : ℚ)) 3 := by
  refine ⟨?_, ?_, ?_, ?_⟩
  · exact confidence_min_and_overall_mean.1 fullSampleKeypoints
      ⟨1, 2, 1 / 2⟩ ⟨3, 4, 1 / 4⟩ rfl rfl
  · exact confidence_min_and_overall_mean.2.1 fullSampleKeypoints
      ⟨5, 6, 1 / 8⟩ ⟨7, 8, 1⟩ rfl rfl
  · exact confidence_min_and_overall_mean.2.2.1 fullSampleKeypoints
      ⟨9, 10, 3 / 4⟩ ⟨11, 12, 1 / 3⟩ ⟨13, 14, 1⟩ ⟨15, 16, 1⟩
      ⟨5, 6, 1 / 8⟩ ⟨7, 8, 1⟩ rfl rfl rfl rfl rfl rfl
  · refine confidence_min_and_overall_mean.2.2.2 _ ?_
    have h : keyConfidences [(⟨0, 0, 1⟩ : Pt)] = [1] := rfl
    rw [h]
    simp

/-! ## Claim C6: degenerate geometry produces a zero angle. -/

/-- C6: with equal left/right x-coordinates the shoulder (and hip) slope is
exactly 0 for all y-deltas, and with a zero vertical head offset the head
tilt is exactly 0 — the guards `dx != 0` / `offset_y != 0` prevent any
atan2 call in those cases. -/
theorem degenerate_geometry_zero_angle :
    (∀ (kp : Keypoints) (l r : Pt), kp.left_shoulder = some l →
      kp.right_shoulder = some r → l.x = r.x →
      (analyzeShoulders kp).map (fun o => o.shoulder_slope_degrees) = some 0) ∧
    (∀ (kp : Keypoints) (l r : Pt), kp.left_hip = some l →
      kp.right_hip = some r → l.x = r.x →
      (analyzeHips kp).map (fun o => o.hip_slope_degrees) = some 0) ∧
    (∀ (kp : Keypoints) (n l r : Pt), kp.nose = some n →
      kp.left_shoulder = some l → kp.right_shoulder = some r →
      n.y - (l.y + r.y) / 2 = 0 →
      (analyzeHead kp).map (fun o => o.head_tilt_degrees) = some 0) := by
  refine ⟨?_, ?_, ?_⟩
  · intro kp l r h1 h2 hx
    obtain ⟨nose, ls, rs, lh, rh, lk, rk, la, ra⟩ := kp
    simp only at h1 h2
    subst h1
    subst h2
    have hdx : r.x - l.x = 0 := by rw [hx]; ring
    simp [analyzeShoulders, hdx, pyRound_zero]
  · intro kp l r h1 h2 hx
    obtain ⟨nose, ls, rs, lh, rh, lk, rk, la, ra⟩ := kp
    simp only at h1 h2
    subst h1
    subst h2
    have hdx : r.x - l.x = 0 := by rw [hx]; ring
    simp [analyzeHips, hdx, pyRound_zero]
  · intro kp n l r h1 h2 h3 hy
    obtain ⟨nose, ls, rs, lh, rh, lk, rk, la, ra⟩ := kp
    simp only at h1 h2 h3
    subst h1
    subst h2
    subst h3
    simp [analyzeHead, hy, pyRound_zero]

/-- Witness for C6 at concrete degenerate keypoint sets. -/
theorem degenerate_geometry_zero_angle_witness :
    (analyzeShoulders { left_shoulder := some ⟨5, 1, 1⟩,
                        right_shoulder := some ⟨5, 9, 1⟩ }).map
      (fun o => o.shoulder_slope_degrees) = some 0 ∧
    (analyzeHips { left_hip := some ⟨2, 0, 1⟩,
                   right_hip := some ⟨2, 7, 1⟩ }).map
      (fun o => o.hip_slope_degrees) = some 0 ∧
    (analyzeHead { nose := some ⟨3, 4, 1⟩, left_shoulder := some ⟨0, 4, 1⟩,
                   right_shoulder := some ⟨10, 4, 1⟩ }).map
      (fun o => o.head_tilt_degrees) = some 0 := by
  refine ⟨?_, ?_, ?_⟩
  · exact degenerate_geometry_zero_angle.1 _ _ _ rfl rfl rfl
  · exact degenerate_geometry_zero_angle.2.1 _ _ _ rfl rfl rfl
  · exact degenerate_geometry_zero_angle.2.2 _ _ _ _ rfl rfl rfl (by norm_num)

/-! ## Claim C9: mirror symmetry of the slope analyses. -/

/-- The value of `degrees(atan2(0, x))` for negative `x`: the atan2 branch
cut gives +180°. -/
theorem atan2deg_zero_neg (x : ℝ) (hx : x < 0) : atan2deg 0 x = 180 := by
  unfold atan2deg
  have h : (⟨x, 0⟩ : ℂ) = ((x : ℝ) : ℂ) := by
    apply Complex.ext
    · simp
    · simp
  rw [h, Complex.arg_ofReal_of_neg hx, mul_comm, mul_div_assoc,
    div_self Real.pi_ne_zero, mul_one]

/-- C9 counterexample: a level shoulder pair with the right landmark to the
left (dx = −200, dy = 0) has slope +180°, and so does its mirrored/swapped
image — the mirrored slope is NOT the negation (180 ≠ −180): the claim
fails on atan2's branch cut. -/
theorem mirror_branch_cut_counterexample :
    (analyzeShoulders { left_shoulder := some ⟨300, 200, 1⟩,
                        right_shoulder := some ⟨100, 200, 1⟩ }).map
      (fun o => o.shoulder_slope_degrees) = some 180 ∧
    (analyzeShoulders { left_shoulder := some ⟨1000 - 100, 200, 1⟩,
                        right_shoulder := some ⟨1000 - 300, 200, 1⟩ }).map
      (fun o => o.shoulder_slope_degrees) = some 180 ∧
    (180 : ℝ) ≠ -180 := by
  have h180 : pyRound (180 : ℝ) 2 = 180 := by
    have h : (180 : ℝ) = ((180 : ℤ) : ℝ) := by norm_num
    rw [h, pyRound_intCast]
  refine ⟨?_, ?_, by norm_num⟩
  · simp only [analyzeShoulders, Option.map]
    rw [if_pos (by norm_num : ((100 : ℚ) - 300) ≠ 0)]
    have hdy : ((200 - 200 : ℚ) : ℝ) = 0 := by push_cast; norm_num
    have hc : ((100 - 300 : ℚ) : ℝ) = -200 := by push_cast; norm_num
    rw [hdy, hc, atan2deg_zero_neg (-200) (by norm_num), h180]
  · simp only [analyzeShoulders, Option.map]
    rw [if_pos (by norm_num : ((1000 : ℚ) - 300 - (1000 - 100)) ≠ 0)]
    have hdy : ((200 - 200 : ℚ) : ℝ) = 0 := by push_cast; norm_num
    have hc : ((1000 - 300 - (1000 - 100) : ℚ) : ℝ) = -200 := by push_cast; norm_num
    rw [hdy, hc, atan2deg_zero_neg (-200) (by norm_num), h180]

/-- C9 amended: swapping left/right while mirroring x negates the rounded
slope angle and the rounded height difference and preserves the imbalance
flag, PROVIDED the pair is not exactly level with dx < 0 (atan2's branch
cut, where both slopes are +180° instead of negating) — for shoulders and,
with the same formula shape, for hips. -/
theorem mirror_symmetry_negates_slope :
    (∀ (W : ℚ) (l r : Pt), ¬(r.y = l.y ∧ r.x - l.x < 0) →
      ∃ o o2,
        analyzeShoulders { left_shoulder := some l,
                           right_shoulder := some r } = some o ∧
        analyzeShoulders { left_shoulder := some ⟨W - r.x, r.y, r.visibility⟩,
                           right_shoulder := some ⟨W - l.x, l.y, l.visibility⟩ } =
          some o2 ∧
        o2.shoulder_slope_degrees = -o.shoulder_slope_degrees ∧
        o2.shoulder_height_difference = -o.shoulder_height_difference ∧
        o2.has_shoulder_imbalance = o.has_shoulder_imbalance) ∧
    (∀ (W : ℚ) (l r : Pt), ¬(r.y = l.y ∧ r.x - l.x < 0) →
      ∃ o o2,
        analyzeHips { left_hip := some l, right_hip := some r } = some o ∧
        analyzeHips { left_hip := some ⟨W - r.x, r.y, r.visibility⟩,
                      right_hip := some ⟨W - l.x, l.y, l.visibility⟩ } =
          some o2 ∧
        o2.hip_slope_degrees = -o.hip_slope_degrees ∧
        o2.hip_height_difference = -o.hip_height_difference ∧
        o2.has_hip_imbalance = o.has_hip_imbalance) := by
  constructor
  · intro W l r hcut
    refine ⟨_, _, rfl, rfl, ?_, ?_, ?_⟩
    · show pyRound (if (W - l.x) - (W - r.x) ≠ 0 then
          atan2deg ((l.y - r.y : ℚ) : ℝ) (((W - l.x) - (W - r.x) : ℚ) : ℝ)
        else 0) 2 =
        -pyRound (if r.x - l.x ≠ 0 then
          atan2deg ((r.y - l.y : ℚ) : ℝ) ((r.x - l.x : ℚ) : ℝ) else 0) 2
      have hdx : (W - l.x) - (W - r.x) = r.x - l.x := by ring
      rw [hdx]
      by_cases hdx0 : r.x - l.x = 0
      · rw [if_neg (not_not_intro hdx0), if_neg (not_not_intro hdx0),
          pyRound_zero]
        norm_num
      · rw [if_pos hdx0, if_pos hdx0]
        have hneg : ((l.y - r.y : ℚ) : ℝ) = -((r.y - l.y : ℚ) : ℝ) := by
          push_cast
          ring
        have hok : ¬(((r.x - l.x : ℚ) : ℝ) < 0 ∧ ((r.y - l.y : ℚ) : ℝ) = 0) := by
          rintro ⟨ha, hb⟩
          apply hcut
          constructor
          · have hb2 : r.y - l.y = 0 := by exact_mod_cast hb
            linarith
          · exact_mod_cast ha
        rw [hneg, atan2deg_neg_fst _ _ hok, pyRound_neg]
    · show pyRound (r.y - l.y) 1 = -pyRound (l.y - r.y) 1
      have h : r.y - l.y = -(l.y - r.y) := by ring
      rw [h, pyRound_neg]
    · show decide (|r.y - l.y| > 10) = decide (|l.y - r.y| > 10)
      rw [abs_sub_comm]
  · intro W l r hcut
    refine ⟨_, _, rfl, rfl, ?_, ?_, ?_⟩
    · show pyRound (if (W - l.x) - (W - r.x) ≠ 0 then
          atan2deg ((l.y - r.y : ℚ) : ℝ) (((W - l.x) - (W - r.x) : ℚ) : ℝ)
        else 0) 2 =
        -pyRound (if r.x - l.x ≠ 0 then
          atan2deg ((r.y - l.y : ℚ) : ℝ) ((r.x - l.x : ℚ) : ℝ) else 0) 2
      have hdx : (W - l.x) - (W - r.x) = r.x - l.x := by ring
      rw [hdx]
      by_cases hdx0 : r.x - l.x = 0
      · rw [if_neg (not_not_intro hdx0), if_neg (not_not_intro hdx0),
          pyRound_zero]
        norm_num
      · rw [if_pos hdx0, if_pos hdx0]
        have hneg : ((l.y - r.y : ℚ) : ℝ) = -((r.y - l.y : ℚ) : ℝ) := by
          push_cast
          ring
        have hok : ¬(((r.x - l.x : ℚ) : ℝ) < 0 ∧ ((r.y - l.y : ℚ) : ℝ) = 0) := by
          rintro ⟨ha, hb⟩
          apply hcut
          constructor
          · have hb2 : r.y - l.y = 0 := by exact_mod_cast hb
            linarith
          · exact_mod_cast ha
        rw [hneg, atan2deg_neg_fst _ _ hok, pyRound_neg]
    · show pyRound (r.y - l.y) 1 = -pyRound (l.y - r.y) 1
      have h : r.y - l.y = -(l.y - r.y) := by ring
      rw [h, pyRound_neg]
    · show decide (|r.y - l.y| > 8) = decide (|l.y - r.y| > 8)
      rw [abs_sub_comm]

/-- Witness for C9 amended at a concrete non-degenerate pair. -/
theorem mirror_symmetry_negates_slope_witness :
    (∃ o o2,
      analyzeShoulders { left_shoulder := some ⟨100, 200, 1⟩,
                         right_shoulder := some ⟨300, 210, 9 / 10⟩ } = some o ∧
      analyzeShoulders { left_shoulder := some ⟨400 - 300, 210, 9 / 10⟩,
                         right_shoulder := some ⟨400 - 100, 200, 1⟩ } =
        some o2 ∧
      o2.shoulder_slope_degrees = -o.shoulder_slope_degrees ∧
      o2.shoulder_height_difference = -o.shoulder_height_difference ∧
      o2.has_shoulder_imbalance = o.has_shoulder_imbalance) ∧
    (∃ o o2,
      analyzeHips { left_hip := some ⟨100, 200, 1⟩,
                    right_hip := some ⟨300, 210, 9 / 10⟩ } = some o ∧
      analyzeHips { left_hip := some ⟨400 - 300, 210, 9 / 10⟩,
                    right_hip := some ⟨400 - 100, 200, 1⟩ } = some o2 ∧
      o2.hip_slope_degrees = -o.hip_slope_degrees ∧
      o2.hip_height_difference = -o.hip_height_difference ∧
      o2.has_hip_imbalance = o.has_hip_imbalance) := by
  constructor
  · exact mirror_symmetry_negates_slope.1 400 ⟨100, 200, 1⟩ ⟨300, 210, 9 / 10⟩
      (by norm_num)
  · exact mirror_symmetry_negates_slope.2 400 ⟨100, 200, 1⟩ ⟨300, 210, 9 / 10⟩
      (by norm_num)

/-! ## Claim C10: bounds on the estimated muscle mass. -/

/-- C10: for every profile, the estimated muscle mass — computed as
`round((100 - estimated_body_fat) * 0.45, 1)` after clamping the body-fat
estimate to [5, 50] — lies in [22.5, 42.8] (the top end being the
one-decimal rounding of 42.75). -/
theorem muscle_mass_bounds (p : UserProfileIn) :
    45 / 2 ≤ (estimateBodyFatAndMuscle p).2 ∧
    (estimateBodyFatAndMuscle p).2 ≤ 214 / 5 := by
  have key : ∀ bf : ℚ,
      45 / 2 ≤ pyRound ((100 - max 5 (min 50 bf)) * (45 / 100)) 1 ∧
      pyRound ((100 - max 5 (min 50 bf)) * (45 / 100)) 1 ≤ 214 / 5 := by
    intro bf
    have h5 : (5 : ℚ) ≤ max 5 (min 50 bf) := le_max_left _ _
    have h50 : max (5 : ℚ) (min 50 bf) ≤ 50 := max_le (by norm_num) (min_le_left _ _)
    have hlo : (45 / 2 : ℚ) ≤ (100 - max 5 (min 50 bf)) * (45 / 100) := by nlinarith
    have hhi : (100 - max (5 : ℚ) (min 50 bf)) * (45 / 100) ≤ 171 / 4 := by nlinarith
    have he1 : pyRound (45 / 2 : ℚ) 1 = 45 / 2 := by
      have h := rhe_eval_low ((45 / 2 : ℚ) * 10 ^ 1) 225 (by norm_num) (by norm_num)
      rw [pyRound_eval _ _ _ h]
      norm_num
    have he2 : pyRound (171 / 4 : ℚ) 1 = 214 / 5 := by
      have ht : ((171 / 4 : ℚ) * 10 ^ 1) = ((427 : ℤ) : ℚ) + 1 / 2 := by norm_num
      have h : rhe ((171 / 4 : ℚ) * 10 ^ 1) = 428 := by
        rw [rhe_eval_tie _ 427 ht]
        norm_num
      rw [pyRound_eval _ _ _ h]
      norm_num
    constructor
    · calc (45 / 2 : ℚ) = pyRound (45 / 2 : ℚ) 1 := he1.symm
        _ ≤ _ := pyRound_mono 1 hlo
    · calc _ ≤ pyRound (171 / 4 : ℚ) 1 := pyRound_mono 1 hhi
        _ = 214 / 5 := he2
  exact key _

end FitWave
